import Mathlib

/-!
Verification development for the slot-calendar booking engine
(`app/calendar/slot_calendar.py` and `app/calendar/slot_calendar_tools.py`).

Modelling conventions:

* The `bookings` table stores `date`, `start_time` and `end_time` as
  TEXT, and the engine compares them with SQLite's default BINARY
  collation (a byte-wise `memcmp`).  All strings involved are ASCII,
  where byte order equals codepoint order, so the SQL comparisons
  `end_time > ?` / `start_time < ?` are modelled by `sqliteLt`,
  a lexicographic comparison over the strings' character codes.
  Stored times are the raw strings the caller supplied (for
  `start_time`) or the canonically formatted `strftime` output (for
  `end_time`): the source does not canonicalize the caller's string.
  Dates are only ever compared for equality (`WHERE date = ?`).
* The SQLite database is a `DB`: a list of rows plus flags that model
  a `sqlite3.Error` being raised on the read path (connect/SELECT) or
  on the write path (INSERT/DELETE), mirroring the `except
  sqlite3.Error` handlers in the source.
* Python's `datetime.strptime` parsing of `"%H:%M"` and `"%Y-%m-%d"`
  is embedded as `parseTime` / `parseDate` over the character list of
  the string (1-2 digit hour 0-23 and minute 0-59; exactly 4-digit
  year >= 1, 1-2 digit month and day checked against month length).
  Note `strptime` accepts non-zero-padded times such as `"9:00"`.
* A raised Python exception is an `Except.error`; `ValueError` and
  `sqlite3.Error` are distinguished by `CalError`.
* `end_time` is computed in the source as the time-of-day of
  `start + timedelta(minutes=duration)`, i.e. it wraps past midnight;
  this is modelled as `formatTime ((s + duration) % 1440)`.
* In `next_available_slot` the calendar day is modelled as a day index
  (`Nat`); the `strftime`/`strptime` round trip between a day and its
  `"YYYY-MM-DD"` string is a bijection not modelled further, and the
  repeated `is_slot_available` call is abstracted as an availability
  oracle on (day, minute-of-day).
-/

/-- Python `_validate_duration`: a valid duration is a positive integer
multiple of 15 (the source raises `ValueError` otherwise). -/
def validDuration (duration : Int) : Bool :=
  decide (0 < duration) && duration % 15 == 0

def durationErrMsg : String :=
  "Duration must be a positive integer multiple of 15 minutes."

/-- Numeric value of a nonempty all-digit character list. -/
def digitsToNat (cs : List Char) : Option Nat :=
  if cs = [] then none
  else if cs.all Char.isDigit then
    some (cs.foldl (fun a c => a * 10 + (c.toNat - 48)) 0)
  else none

/-- Python `_parse_time` (`datetime.strptime(s, "%H:%M")`): one or two
digit hour 0-23, a colon, one or two digit minute 0-59; result in
minutes since midnight. -/
def parseTime (s : String) : Option Nat :=
  match s.data.splitOn ':' with
  | [h, m] =>
    match digitsToNat h, digitsToNat m with
    | some hv, some mv =>
      if h.length ≤ 2 && m.length ≤ 2 && hv ≤ 23 && mv ≤ 59 then
        some (hv * 60 + mv)
      else none
    | _, _ => none
  | _ => none

def isLeapYear (y : Nat) : Bool :=
  y % 4 == 0 && (y % 100 != 0 || y % 400 == 0)

def daysInMonth (y m : Nat) : Nat :=
  if m == 2 then (if isLeapYear y then 29 else 28)
  else if m == 4 || m == 6 || m == 9 || m == 11 then 30
  else 31

/-- Python `_parse_date` (`datetime.strptime(s, "%Y-%m-%d").date()`):
exactly four digit year (year 0 is below `date.MINYEAR` and rejected),
1-2 digit month 1-12, 1-2 digit day valid for that month. -/
def parseDate (s : String) : Option (Nat × Nat × Nat) :=
  match s.data.splitOn '-' with
  | [y, m, d] =>
    match digitsToNat y, digitsToNat m, digitsToNat d with
    | some yv, some mv, some dv =>
      if y.length == 4 && 1 ≤ yv && m.length ≤ 2 && 1 ≤ mv && mv ≤ 12
          && d.length ≤ 2 && 1 ≤ dv && dv ≤ daysInMonth yv mv then
        some (yv, mv, dv)
      else none
    | _, _, _ => none
  | _ => none

/-- Python `_format_time` (`strftime("%H:%M")`): zero-padded two-digit
hour and minute. -/
def formatTime (minutes : Nat) : String :=
  ⟨[Char.ofNat (48 + minutes / 60 % 24 / 10), Char.ofNat (48 + minutes / 60 % 24 % 10),
    ':',
    Char.ofNat (48 + minutes % 60 / 10), Char.ofNat (48 + minutes % 60 % 10)]⟩

/-- Byte-wise lexicographic order on character lists: the order SQLite's
default BINARY collation (`memcmp`) gives on ASCII TEXT values. -/
def charListLt : List Char → List Char → Bool
  | [], [] => false
  | [], _ :: _ => true
  | _ :: _, [] => false
  | a :: as, b :: bs =>
    if a.toNat < b.toNat then true
    else if b.toNat < a.toNat then false
    else charListLt as bs

/-- SQLite BINARY-collation comparison of two TEXT values (for the
ASCII strings the engine handles, byte order equals codepoint
order). -/
def sqliteLt (a b : String) : Bool := charListLt a.data b.data

/-- Minute value denoted by a stored time string (0 when unparseable);
used only to state claims about the intervals stored strings denote. -/
def timeVal (t : String) : Nat := (parseTime t).getD 0

/-- A time string is canonical when it is the zero-padded `"HH:MM"`
rendering of its own value — exactly the strings `strftime` emits. -/
def isCanonicalTime (t : String) : Bool :=
  match parseTime t with
  | some u => t == formatTime u
  | none => false

/-- One row of the `bookings` table, with the TEXT columns kept as the
raw strings the INSERT wrote. -/
structure Booking where
  id : Nat
  date : String
  startT : String
  endT : String
  durationMin : Int
  customerId : String
  serviceName : String
deriving DecidableEq

/-- The SQLite database state.  `readFail` models `sqlite3.Error`
raised while connecting/SELECTing, `writeFail` (with its message)
models `sqlite3.Error` raised by INSERT/DELETE.  `nextId` is the next
AUTOINCREMENT `booking_id`.  Note the schema in `setup_database` has
no UNIQUE constraint: the `UNIQUE (date, start_time)` clause is
commented out in the source. -/
structure DB where
  rows : List Booking
  readFail : Bool
  writeFail : Bool
  writeFailMsg : String
  nextId : Nat
deriving DecidableEq

/-- Python exception classes relevant to the engine. -/
inductive CalError where
  | valueError (msg : String)
  | dbError (msg : String)
deriving DecidableEq

/-- The overlap test of the effective SQL query in `is_slot_available`
(`WHERE date = ? AND end_time > ? AND start_time < ?` bound to the
request date, the caller's raw time string, and the canonically
formatted wrapped end), run against a non-failing store.  The first
three-condition query in the source is dead code: its cursor is
immediately overwritten by this query. -/
def availableOn (db : DB) (date time endStr : String) : Bool :=
  if db.readFail then false
  else
    !db.rows.any fun b =>
      b.date == date && sqliteLt time b.endT && sqliteLt b.startT endStr

/-- Python `is_slot_available`.  Duration validation happens outside
the `try` block and so propagates as `ValueError`; a date/time parse
failure or a `sqlite3.Error` is caught and yields `False`.  The SQL
compares the raw `time` argument and the formatted wrapped end
time. -/
def is_slot_available (db : DB) (date : String) (time : String)
    (duration : Int) : Except String Bool :=
  if !validDuration duration then .error durationErrMsg
  else
    match parseDate date, parseTime time with
    | some _, some s =>
      .ok (availableOn db date time (formatTime ((s + duration.toNat) % 1440)))
    | _, _ => .ok false

/-- Substring test used to model Python's `"..." in str(e)`. -/
def containsSub (msg pat : String) : Bool :=
  (msg.splitOn pat).length > 1

/-- Python `book_slot`: validate duration and field lengths, check
availability, then INSERT.  The INSERT writes the caller's raw
`start_time` string and the formatted wrapped end time.  A write-path
`sqlite3.Error` whose message mentions a UNIQUE constraint is
converted to `ValueError`; any other write error is re-raised. -/
def book_slot (db : DB) (date : String) (start_time : String)
    (duration : Int) (client_id : String) (service_name : String) :
    Except CalError (DB × Nat) :=
  if !validDuration duration then .error (.valueError durationErrMsg)
  else if client_id.length > 32 then
    .error (.valueError "client_id cannot exceed 32 characters.")
  else if service_name.length > 100 then
    .error (.valueError "service_name cannot exceed 100 characters.")
  else
    match is_slot_available db date start_time duration with
    | .ok true =>
      match parseDate date, parseTime start_time with
      | some _, some s =>
        if db.writeFail then
          if containsSub db.writeFailMsg "UNIQUE constraint failed" then
            .error (.valueError ("Slot " ++ date ++ " " ++ start_time ++ " for "
              ++ toString duration ++ " minutes is not available (database constraint)."))
          else .error (.dbError db.writeFailMsg)
        else
          .ok ({ db with
                  rows := db.rows ++
                    [⟨db.nextId, date, start_time, formatTime ((s + duration.toNat) % 1440),
                      duration, client_id, service_name⟩],
                  nextId := db.nextId + 1 },
               db.nextId)
      | _, _ =>
        -- unreachable: availability returned true, so both parses succeeded
        .error (.valueError "time data does not match format")
    | .ok false =>
      .error (.valueError ("Slot " ++ date ++ " " ++ start_time ++ " for "
        ++ toString duration ++ " minutes is not available."))
    | .error m => .error (.valueError m)

/-- Python `cancel_booking`: an invalid id returns `False`; a
`sqlite3.Error` during the DELETE is caught and returns `False`
(the `except sqlite3.Error` handler ends in `return False`); otherwise
rows with the id are deleted and the result reports whether any row
was removed (`cursor.rowcount > 0`). -/
def cancel_booking (db : DB) (booking_id : Int) : Except CalError (DB × Bool) :=
  if booking_id ≤ 0 then .ok (db, false)
  else if db.writeFail then .ok (db, false)
  else
    let remaining := db.rows.filter fun b => decide ((b.id : Int) ≠ booking_id)
    if remaining.length < db.rows.length then
      .ok ({ db with rows := remaining }, true)
    else .ok (db, false)

/-- The boolean the scanning loops read off the `is_slot_available`
call; the error case cannot occur there because the enclosing function
validated the duration first. -/
def availBool (db : DB) (date time : String) (duration : Int) : Bool :=
  match is_slot_available db date time duration with
  | .ok b => b
  | .error _ => false

/-- The while loop of Python `slots_available_on_day`: scan 30-minute
steps from the current time while it is before 17:00 (= 1020 minutes),
collecting the start times for which
`is_slot_available(date, format(current), duration)` is true — the
loop formats each candidate canonically before the call. -/
def slotsLoop (db : DB) (date : String) (duration : Int) (current : Nat) :
    List Nat :=
  if _h : current < 1020 then
    (if availBool db date (formatTime current) duration then [current] else []) ++
      slotsLoop db date duration (current + 30)
  else []
termination_by 1020 - current
decreasing_by omega

/-- The candidate start times the loop visits from a given time:
30-minute steps strictly below 17:00. -/
def slotCandidates (current : Nat) : List Nat :=
  if _h : current < 1020 then current :: slotCandidates (current + 30)
  else []
termination_by 1020 - current
decreasing_by omega

/-- Python `slots_available_on_day`: validate the duration (raises),
parse the date (a `ValueError` is caught and yields `[]`), then scan
from 09:00 (= 540 minutes). -/
def slots_available_on_day (db : DB) (date : String) (duration : Int) :
    Except String (List Nat) :=
  if !validDuration duration then .error durationErrMsg
  else
    match parseDate date with
    | some _ => .ok (slotsLoop db date duration 540)
    | none => .ok []

/-- The while loop of Python `next_available_slot`, over absolute
minutes (`current = day * 1440 + minuteOfDay`).  While the candidate
is below the search limit: a time-of-day before 09:00 jumps to 09:00
the same day, one at or after 17:00 jumps to 09:00 the next day, and
otherwise the availability oracle is consulted and the candidate
advances by 15 minutes on failure.  `avail day minute` abstracts the
`is_slot_available(strftime(day), format(minute), duration)` call. -/
def nextAvailLoop (avail : Nat → Nat → Bool) (limit : Nat) (current : Nat) :
    Option (Nat × Nat) :=
  if _h : current < limit then
    if _h2 : current % 1440 < 540 then
      nextAvailLoop avail limit (current - current % 1440 + 540)
    else if _h3 : 1020 ≤ current % 1440 then
      nextAvailLoop avail limit (current - current % 1440 + 1980)
    else if avail (current / 1440) (current % 1440) then
      some (current / 1440, current % 1440)
    else
      nextAvailLoop avail limit (current + 15)
  else none
termination_by limit - current
decreasing_by
  · omega
  · omega
  · omega

/-- The initial candidate of `next_available_slot`: the requested
instant advanced to the next 15-minute boundary at or after it
(`minute_offset = 15 - minute % 15`, reset to 0 when already
aligned). -/
def searchStart (startDay startMin : Nat) : Nat :=
  startDay * 1440 + startMin +
    (15 - (startDay * 1440 + startMin) % 15) % 15

/-- The search horizon: one year (365 days = 525600 minutes) after the
initial candidate (`search_limit_dt = current_dt + timedelta(days=365)`). -/
def searchLimit (startDay startMin : Nat) : Nat :=
  searchStart startDay startMin + 525600

/-- Python `next_available_slot`: validate the duration (raises, since
the check sits outside the `try` block), then run the bounded scan. -/
def next_available_slot (avail : Nat → Nat → Bool) (startDay startMin : Nat)
    (duration : Int) : Except String (Option (Nat × Nat)) :=
  if !validDuration duration then .error durationErrMsg
  else .ok (nextAvailLoop avail (searchLimit startDay startMin)
    (searchStart startDay startMin))

-- Tool adapter (`slot_calendar_tools.py`).  Arguments arrive as a JSON
-- field map; an absent field is `none`.  Python's `not all([...])`
-- treats `None`, `""` and the integer `0` as falsy, which `truthyS` /
-- `truthyI` reproduce.

def truthyS : Option String → Bool
  | none => false
  | some s => s != ""

def truthyI : Option Int → Bool
  | none => false
  | some n => n != 0

inductive BookToolResult where
  | success (booked : Nat)
  | failure (error : String)
deriving DecidableEq

inductive AvailToolResult where
  | success (available : Bool)
  | failure (error : String)
deriving DecidableEq

inductive NextToolResult where
  | success (date : String) (time : String)
  | failure (error : String)
deriving DecidableEq

inductive ReleaseToolResult where
  | success (released : Bool)
  | failure (error : String)
deriving DecidableEq

/-- Python `book_slot_tool`: required-field check, then the engine
call; a `ValueError` becomes the failure message, any other exception
is wrapped as an unexpected error.  (The `int(duration)` coercion is
modelled by taking the duration as an integer directly.) -/
def book_slot_tool (db : DB) (date time : Option String)
    (duration : Option Int) (client_id service_name : Option String) :
    BookToolResult :=
  if !(truthyS date && truthyS time && truthyI duration
        && truthyS client_id && truthyS service_name) then
    .failure "Missing required parameters: date, time, duration, client_id, and service_name are required"
  else
    match book_slot db (date.getD "") (time.getD "") (duration.getD 0)
        (client_id.getD "") (service_name.getD "") with
    | .ok (_, bookingId) => .success bookingId
    | .error (.valueError m) => .failure m
    | .error (.dbError m) => .failure ("Unexpected error: " ++ m)

/-- Python `is_slot_available_tool`. -/
def is_slot_available_tool (db : DB) (date time : Option String)
    (duration : Option Int) : AvailToolResult :=
  if !(truthyS date && truthyS time && truthyI duration) then
    .failure "Missing required parameters: date, time, and duration are required"
  else
    match is_slot_available db (date.getD "") (time.getD "") (duration.getD 0) with
    | .ok b => .success b
    | .error m => .failure m

/-- Python `next_available_slot_tool`.  The engine call
`slot_calendar.next_available_slot((after_date, after_time), duration)`
is abstracted as the `engine` parameter: an `Except.error` is the
`ValueError` the engine raises for an invalid duration, `Except.ok
none` the exhausted one-year search. -/
def next_available_slot_tool
    (engine : String → String → Int → Except String (Option (String × String)))
    (after_date after_time : Option String) (duration : Option Int) :
    NextToolResult :=
  if !(truthyS after_date && truthyS after_time && truthyI duration) then
    .failure "Missing required parameters: after_date, after_time, and duration are required"
  else
    match engine (after_date.getD "") (after_time.getD "") (duration.getD 0) with
    | .ok (some (d, t)) => .success d t
    | .ok none => .failure "No available slot found within the next year"
    | .error m => .failure m

/-- Python `release_slot_tool`.  After the required-field check the
tool calls `slot_calendar.release_slot(date, time)`, but the
`slot_calendar` module defines no `release_slot` function, so the call
raises `AttributeError`, which the `except Exception` handler turns
into the generic unexpected-error failure.  The success branch of the
source is therefore unreachable. -/
def release_slot_tool (date time : Option String) : ReleaseToolResult :=
  if !(truthyS date && truthyS time) then
    .failure "Missing required parameters: date and time are required"
  else
    .failure "Unexpected error: module 'app.calendar.slot_calendar' has no attribute 'release_slot'"

/-- The specified store invariant: on any fixed date, the half-open
intervals denoted by two distinct persisted bookings' stored time
strings do not overlap. -/
def NoOverlap (rows : List Booking) : Prop :=
  rows.Pairwise fun a b => a.date = b.date →
    ¬(timeVal a.startT < timeVal b.endT ∧ timeVal b.startT < timeVal a.endT)

-- Concrete database states used by the closed theorems below.

/-- Fresh store, as created by `setup_database`. -/
def dbEmpty : DB := ⟨[], false, false, "", 1⟩

/-- Store holding the midnight-wrapping booking 23:00-24:00 (stored
end time `"00:00"`), as `book_slot` itself creates it. -/
def dbMid1 : DB :=
  ⟨[⟨1, "2025-04-01", "23:00", "00:00", 60, "alice", "cut"⟩], false, false, "", 2⟩

/-- `dbMid1` after a second, identical `(date, start_time)` booking. -/
def dbMid2 : DB :=
  ⟨[⟨1, "2025-04-01", "23:00", "00:00", 60, "alice", "cut"⟩,
    ⟨2, "2025-04-01", "23:00", "00:00", 60, "bob", "cut"⟩], false, false, "", 3⟩

/-- Store holding one ordinary booking 16:00-17:00. -/
def dbC1 : DB :=
  ⟨[⟨1, "2025-04-01", "16:00", "17:00", 60, "carol", "cut"⟩], false, false, "", 2⟩

/-- Store holding one ordinary booking 09:00-10:00. -/
def dbPad : DB :=
  ⟨[⟨1, "2025-04-01", "09:00", "10:00", 60, "frank", "cut"⟩], false, false, "", 2⟩

/-- Store holding one ordinary booking 10:00-11:00. -/
def dbDay : DB :=
  ⟨[⟨1, "2025-04-01", "10:00", "11:00", 60, "dave", "cut"⟩], false, false, "", 2⟩

/-- Store whose read path raises `sqlite3.Error`. -/
def dbReadFail : DB := ⟨[], true, false, "", 1⟩

/-- Empty store whose write path raises `sqlite3.Error`. -/
def dbWriteFail : DB := ⟨[], false, true, "disk I/O error", 1⟩

/-- Store with one booking whose write path raises `sqlite3.Error`. -/
def dbCancelFail : DB :=
  ⟨[⟨1, "2025-04-01", "10:00", "11:00", 60, "erin", "cut"⟩], false, true, "disk I/O error", 2⟩

/-- `dbEmpty` after booking 10:00 for 60 minutes. -/
def dbBooked1 : DB :=
  ⟨[⟨1, "2025-04-01", "10:00", "11:00", 60, "alice", "cut"⟩], false, false, "", 2⟩

/-- `dbEmpty` after `book_slot` with the non-padded start `"9:00"`:
the raw string is stored, the end formatted canonically. -/
def db9a : DB :=
  ⟨[⟨1, "2025-04-01", "9:00", "09:30", 30, "alice", "cut"⟩], false, false, "", 2⟩

/-- `db9a` after a second booking of the same real interval via the
padded spelling `"09:00"`. -/
def db9b : DB :=
  ⟨[⟨1, "2025-04-01", "9:00", "09:30", 30, "alice", "cut"⟩,
    ⟨2, "2025-04-01", "09:00", "09:30", 30, "bob", "cut"⟩], false, false, "", 3⟩

-- Helper lemmas: the BINARY string order against formatted times.

lemma charListLt_nil : charListLt [] [] = false := rfl

lemma charListLt_cons (a b : Char) (as bs : List Char) :
    charListLt (a :: as) (b :: bs) =
      if a.toNat < b.toNat then true
      else if b.toNat < a.toNat then false
      else charListLt as bs := rfl

lemma charOfNat_digit_toNat : ∀ d : Nat, d < 10 → (Char.ofNat (48 + d)).toNat = 48 + d := by
  decide

set_option maxHeartbeats 1600000 in
lemma sqliteLt_formatTime_iff (a b : Nat) (ha : a < 1440) (hb : b < 1440) :
    sqliteLt (formatTime a) (formatTime b) = true ↔ a < b := by
  have e1 := charOfNat_digit_toNat (a / 60 % 24 / 10) (by omega)
  have e2 := charOfNat_digit_toNat (a / 60 % 24 % 10) (by omega)
  have e3 := charOfNat_digit_toNat (a % 60 / 10) (by omega)
  have e4 := charOfNat_digit_toNat (a % 60 % 10) (by omega)
  have f1 := charOfNat_digit_toNat (b / 60 % 24 / 10) (by omega)
  have f2 := charOfNat_digit_toNat (b / 60 % 24 % 10) (by omega)
  have f3 := charOfNat_digit_toNat (b % 60 / 10) (by omega)
  have f4 := charOfNat_digit_toNat (b % 60 % 10) (by omega)
  have hcolon : (':').toNat = 58 := rfl
  show charListLt
      [Char.ofNat (48 + a / 60 % 24 / 10), Char.ofNat (48 + a / 60 % 24 % 10), ':',
       Char.ofNat (48 + a % 60 / 10), Char.ofNat (48 + a % 60 % 10)]
      [Char.ofNat (48 + b / 60 % 24 / 10), Char.ofNat (48 + b / 60 % 24 % 10), ':',
       Char.ofNat (48 + b % 60 / 10), Char.ofNat (48 + b % 60 % 10)] = true ↔ a < b
  rw [charListLt_cons, e1, f1, charListLt_cons, e2, f2, charListLt_cons, hcolon,
    charListLt_cons, e3, f3, charListLt_cons, e4, f4, charListLt_nil]
  split_ifs <;> simp only [eq_self_iff_true, true_iff, Bool.false_eq_true, false_iff] <;> omega

set_option maxHeartbeats 3200000 in
lemma parseTime_formatTime :
    ∀ h ∈ List.range 24, ∀ m ∈ List.range 60,
      parseTime (formatTime (60 * h + m)) = some (60 * h + m) := by
  decide

lemma parseTime_formatTime_of_lt {t : Nat} (ht : t < 1440) :
    parseTime (formatTime t) = some t := by
  have h := parseTime_formatTime (t / 60) (List.mem_range.mpr (by omega))
    (t % 60) (List.mem_range.mpr (by omega))
  rw [show 60 * (t / 60) + t % 60 = t by omega] at h
  exact h

lemma parseTime_lt_1440 {s : String} {v : Nat} (h : parseTime s = some v) : v < 1440 := by
  unfold parseTime at h
  split at h
  · split at h
    · split at h
      · next hc =>
        simp only [Bool.and_eq_true, decide_eq_true_eq] at hc
        injection h with hv
        omega
      · exact absurd h (by simp)
    · exact absurd h (by simp)
  · exact absurd h (by simp)

lemma timeVal_formatTime {v : Nat} (hv : v < 1440) : timeVal (formatTime v) = v := by
  unfold timeVal
  rw [parseTime_formatTime_of_lt hv]
  rfl

lemma isCanonicalTime_formatTime {v : Nat} (hv : v < 1440) :
    isCanonicalTime (formatTime v) = true := by
  unfold isCanonicalTime
  rw [parseTime_formatTime_of_lt hv]
  simp

lemma isCanonicalTime_spec {t : String} (h : isCanonicalTime t = true) :
    ∃ u, u < 1440 ∧ parseTime t = some u ∧ t = formatTime u ∧ timeVal t = u := by
  unfold isCanonicalTime at h
  split at h
  · next u hu =>
    refine ⟨u, parseTime_lt_1440 hu, hu, by simpa using h, ?_⟩
    unfold timeVal
    rw [hu]
    rfl
  · exact absurd h (by simp)

-- Helper lemmas: the engine functions.

lemma availableOn_true_iff (db : DB) (date time endStr : String)
    (hread : db.readFail = false) :
    availableOn db date time endStr = true ↔
      ∀ b ∈ db.rows, b.date = date →
        ¬(sqliteLt time b.endT = true ∧ sqliteLt b.startT endStr = true) := by
  unfold availableOn
  rw [hread]
  simp [List.any_eq_false]

lemma availableOn_readFail_false {db : DB} {date time endStr : String}
    (h : availableOn db date time endStr = true) : db.readFail = false := by
  unfold availableOn at h
  split at h
  · exact absurd h (by simp)
  · next hc => exact Bool.eq_false_iff.mpr hc

lemma is_slot_available_ok_true (db : DB) (date time : String) (duration : Int)
    (h : is_slot_available db date time duration = .ok true) :
    ∃ x s, parseDate date = some x ∧ parseTime time = some s ∧
      availableOn db date time (formatTime ((s + duration.toNat) % 1440)) = true := by
  unfold is_slot_available at h
  split at h
  · exact absurd h (by simp)
  · split at h
    · next x s hd ht =>
      exact ⟨x, s, hd, ht, by simpa using h⟩
    · exact absurd h (by simp)

lemma nextAvailLoop_done (avail : Nat → Nat → Bool) (limit current : Nat)
    (h : ¬ current < limit) : nextAvailLoop avail limit current = none := by
  unfold nextAvailLoop
  rw [dif_neg h]

lemma nextAvailLoop_before (avail : Nat → Nat → Bool) (limit current : Nat)
    (h : current < limit) (h2 : current % 1440 < 540) :
    nextAvailLoop avail limit current =
      nextAvailLoop avail limit (current - current % 1440 + 540) := by
  conv_lhs => rw [nextAvailLoop.eq_def]
  rw [dif_pos h, dif_pos h2]

lemma nextAvailLoop_after (avail : Nat → Nat → Bool) (limit current : Nat)
    (h : current < limit) (h3 : 1020 ≤ current % 1440) :
    nextAvailLoop avail limit current =
      nextAvailLoop avail limit (current - current % 1440 + 1980) := by
  conv_lhs => rw [nextAvailLoop.eq_def]
  rw [dif_pos h, dif_neg (by omega), dif_pos h3]

lemma nextAvailLoop_hit (avail : Nat → Nat → Bool) (limit current : Nat)
    (h : current < limit) (h2 : 540 ≤ current % 1440) (h3 : current % 1440 < 1020)
    (h4 : avail (current / 1440) (current % 1440) = true) :
    nextAvailLoop avail limit current = some (current / 1440, current % 1440) := by
  unfold nextAvailLoop
  rw [dif_pos h, dif_neg (by omega), dif_neg (by omega), if_pos h4]

lemma nextAvailLoop_miss (avail : Nat → Nat → Bool) (limit current : Nat)
    (h : current < limit) (h2 : 540 ≤ current % 1440) (h3 : current % 1440 < 1020)
    (h4 : avail (current / 1440) (current % 1440) = false) :
    nextAvailLoop avail limit current = nextAvailLoop avail limit (current + 15) := by
  conv_lhs => rw [nextAvailLoop.eq_def]
  rw [dif_pos h, dif_neg (by omega), dif_neg (by omega), if_neg (by simp [h4])]

lemma nextAvailLoop_none (avail : Nat → Nat → Bool) (limit : Nat) :
    ∀ current : Nat,
      (∀ day minute : Nat, minute < 1440 → current ≤ day * 1440 + minute →
        day * 1440 + minute < limit → avail day minute = false) →
      nextAvailLoop avail limit current = none := by
  suffices H : ∀ n current : Nat, limit - current ≤ n →
      (∀ day minute : Nat, minute < 1440 → current ≤ day * 1440 + minute →
        day * 1440 + minute < limit → avail day minute = false) →
      nextAvailLoop avail limit current = none by
    exact fun current h => H (limit - current) current le_rfl h
  intro n
  induction n with
  | zero =>
    intro c hc _
    exact nextAvailLoop_done _ _ _ (by omega)
  | succ n ih =>
    intro c hc hh
    by_cases h : c < limit
    · by_cases h2 : c % 1440 < 540
      · rw [nextAvailLoop_before _ _ _ h h2]
        refine ih _ (by omega) ?_
        intro day minute hm h1 h2'
        exact hh day minute hm (by omega) h2'
      · by_cases h3 : 1020 ≤ c % 1440
        · rw [nextAvailLoop_after _ _ _ h h3]
          refine ih _ (by omega) ?_
          intro day minute hm h1 h2'
          exact hh day minute hm (by omega) h2'
        · have h4 : avail (c / 1440) (c % 1440) = false :=
            hh (c / 1440) (c % 1440) (by omega) (by omega) (by omega)
          rw [nextAvailLoop_miss _ _ _ h (by omega) (by omega) h4]
          refine ih _ (by omega) ?_
          intro day minute hm h1 h2'
          exact hh day minute hm (by omega) h2'
    · exact nextAvailLoop_done _ _ _ h

lemma slotsLoop_stop (db : DB) (date : String) (duration : Int) (c : Nat)
    (h : ¬ c < 1020) : slotsLoop db date duration c = [] := by
  unfold slotsLoop
  rw [dif_neg h]

lemma slotsLoop_step (db : DB) (date : String) (duration : Int) (c : Nat)
    (h : c < 1020) :
    slotsLoop db date duration c =
      (if availBool db date (formatTime c) duration then [c] else []) ++
        slotsLoop db date duration (c + 30) := by
  conv_lhs => rw [slotsLoop.eq_def]
  rw [dif_pos h]

lemma slotCandidates_stop (c : Nat) (h : ¬ c < 1020) : slotCandidates c = [] := by
  unfold slotCandidates
  rw [dif_neg h]

lemma slotCandidates_step (c : Nat) (h : c < 1020) :
    slotCandidates c = c :: slotCandidates (c + 30) := by
  conv_lhs => rw [slotCandidates.eq_def]
  rw [dif_pos h]

lemma slotsLoop_eq_filter (db : DB) (date : String) (duration : Int) :
    ∀ c : Nat, slotsLoop db date duration c =
      (slotCandidates c).filter fun t => availBool db date (formatTime t) duration := by
  suffices H : ∀ n c : Nat, 1020 - c ≤ n → slotsLoop db date duration c =
      (slotCandidates c).filter fun t => availBool db date (formatTime t) duration by
    exact fun c => H (1020 - c) c le_rfl
  intro n
  induction n with
  | zero =>
    intro c hc
    rw [slotsLoop_stop _ _ _ _ (by omega), slotCandidates_stop _ (by omega)]
    rfl
  | succ n ih =>
    intro c hc
    by_cases h : c < 1020
    · rw [slotsLoop_step _ _ _ _ h, slotCandidates_step _ h, List.filter_cons,
        ih (c + 30) (by omega)]
      by_cases hA : availBool db date (formatTime c) duration = true
      · rw [hA]
        simp
      · rw [Bool.not_eq_true] at hA
        rw [hA]
        simp
    · rw [slotsLoop_stop _ _ _ _ h, slotCandidates_stop _ h]
      rfl

lemma slotCandidates_from_540 :
    slotCandidates 540 =
      [540, 570, 600, 630, 660, 690, 720, 750, 780, 810, 840, 870, 900, 930, 960, 990] := by
  simp [slotCandidates]

-- Claim theorems.

/-- Claim C1 (amended): for every store whose persisted time strings
are canonical zero-padded `"HH:MM"` (as `book_slot` stores for its end
times and canonical callers supply for starts), every well-formed
date, every canonical start time `S` and valid duration whose slot
ends strictly before midnight (`S + duration < 1440`), with no storage
failure, `is_slot_available` returns true if and only if no stored
booking on that date with interval `[Bs, Be)` satisfies `S < Be` and
`S + duration > Bs`; back-to-back adjacency is admitted.  Both
restrictions are forced by `C1_counterexample`: a request reaching
past 24:00 is compared against the wrapped end-of-day time, and a
non-padded request string such as `"9:00"` is compared by SQLite's
BINARY order, which diverges from time order. -/
theorem C1_availability_iff_no_overlap (db : DB) (date : String) (S : Nat)
    (duration : Int) (x : Nat × Nat × Nat)
    (hdur : validDuration duration = true)
    (hdate : parseDate date = some x)
    (hS : S < 1440)
    (hread : db.readFail = false)
    (hday : S + duration.toNat < 1440)
    (hcanon : ∀ b ∈ db.rows, isCanonicalTime b.startT = true ∧ isCanonicalTime b.endT = true) :
    is_slot_available db date (formatTime S) duration = .ok true ↔
      ∀ b ∈ db.rows, b.date = date →
        ¬(S < timeVal b.endT ∧ S + duration.toNat > timeVal b.startT) := by
  unfold is_slot_available
  rw [if_neg (by simp [hdur]), hdate, parseTime_formatTime_of_lt hS]
  simp only [Except.ok.injEq]
  rw [availableOn_true_iff db date (formatTime S) _ hread, Nat.mod_eq_of_lt hday]
  refine forall_congr' fun b => imp_congr_right fun hb => imp_congr_right fun hbd =>
    not_congr (and_congr ?_ ?_)
  · obtain ⟨v, hv, hpv, hfv, htvv⟩ := isCanonicalTime_spec (hcanon b hb).2
    rw [hfv, sqliteLt_formatTime_iff S v hS hv, timeVal_formatTime hv]
  · obtain ⟨u, hu, hpu, hfu, htvu⟩ := isCanonicalTime_spec (hcanon b hb).1
    rw [hfu, sqliteLt_formatTime_iff u (S + duration.toNat) hu hday, timeVal_formatTime hu]

/-- Claim C1 fails as frozen, in two independent ways.  First, with
the booking 16:00-17:00 stored, the request 16:00 for 480 minutes
(`E = 24:00`) overlaps it in the claim's sense, yet the checker
reports the slot available, because the SQL compares against the
wrapped end time `"00:00"`.  Second, with the booking 09:00-10:00
stored, the request `"9:00"` for 30 minutes (a spelling `strptime`
accepts, denoting 09:00) also overlaps it, yet the checker reports the
slot available, because SQLite's BINARY order puts `"10:00"` before
the raw string `"9:00"`. -/
theorem C1_counterexample :
    (is_slot_available dbC1 "2025-04-01" "16:00" 480 = .ok true ∧
      ¬ (∀ b ∈ dbC1.rows, b.date = "2025-04-01" →
            ¬(960 < timeVal b.endT ∧ 960 + 480 > timeVal b.startT))) ∧
    (is_slot_available dbPad "2025-04-01" "9:00" 30 = .ok true ∧
      parseTime "9:00" = some 540 ∧
      ¬ (∀ b ∈ dbPad.rows, b.date = "2025-04-01" →
            ¬(540 < timeVal b.endT ∧ 540 + 30 > timeVal b.startT))) :=
  ⟨⟨by rfl, by decide⟩, ⟨by rfl, by decide, by decide⟩⟩

/-- Witness for `C1_availability_iff_no_overlap` at the store `dbC1`
and the canonical request 09:00 for 30 minutes. -/
theorem C1_witness :
    validDuration 30 = true ∧ parseDate "2025-04-01" = some (2025, 4, 1) ∧
    (540 : Nat) < 1440 ∧ dbC1.readFail = false ∧
    540 + (30 : Int).toNat < 1440 ∧
    (∀ b ∈ dbC1.rows, isCanonicalTime b.startT = true ∧ isCanonicalTime b.endT = true) ∧
    (is_slot_available dbC1 "2025-04-01" (formatTime 540) 30 = .ok true ↔
      ∀ b ∈ dbC1.rows, b.date = "2025-04-01" →
        ¬(540 < timeVal b.endT ∧ 540 + (30 : Int).toNat > timeVal b.startT)) :=
  ⟨by decide, by decide, by decide, rfl, by decide, by decide,
   C1_availability_iff_no_overlap dbC1 "2025-04-01" 540 30 (2025, 4, 1)
     (by decide) (by decide) (by decide) rfl (by decide) (by decide)⟩

/-- Claim C2 (amended): `book_slot` preserves the no-double-booking
invariant for canonical stores and canonical start-time arguments:
from any store of canonically formatted bookings satisfying
`NoOverlap`, a call whose `start_time` is a zero-padded `"HH:MM"`
string either raises or appends a booking overlapping no existing
booking on its date, preserving both the invariant and canonicity.
The restriction to canonical start strings is forced by
`C2_counterexample`: the INSERT stores the caller's raw string, which
later availability checks compare by SQLite's BINARY order. -/
theorem C2_no_double_booking (db db' : DB) (date start_time : String)
    (duration : Int) (client_id service_name : String) (bid : Nat)
    (hcanon : ∀ b ∈ db.rows, isCanonicalTime b.startT = true ∧ isCanonicalTime b.endT = true)
    (hts : isCanonicalTime start_time = true)
    (hInv : NoOverlap db.rows)
    (hok : book_slot db date start_time duration client_id service_name = .ok (db', bid)) :
    NoOverlap db'.rows ∧
      ∀ b ∈ db'.rows, isCanonicalTime b.startT = true ∧ isCanonicalTime b.endT = true := by
  unfold book_slot at hok
  split at hok
  · exact absurd hok (by simp)
  · split at hok
    · exact absurd hok (by simp)
    · split at hok
      · exact absurd hok (by simp)
      · split at hok
        · next havail =>
          split at hok
          · next x s hdate htime =>
            split at hok
            · split at hok
              · exact absurd hok (by simp)
              · exact absurd hok (by simp)
            · rw [Except.ok.injEq, Prod.mk.injEq] at hok
              obtain ⟨hdb, _⟩ := hok
              subst hdb
              obtain ⟨x', s', hd', ht', hA⟩ := is_slot_available_ok_true _ _ _ _ havail
              rw [htime] at ht'
              injection ht' with hss
              subst hss
              have hread := availableOn_readFail_false hA
              have hfree := (availableOn_true_iff db date start_time _ hread).mp hA
              have hsv : s < 1440 := parseTime_lt_1440 htime
              have hend : (s + duration.toNat) % 1440 < 1440 := by omega
              obtain ⟨s0, hs0lt, hps0, hfs0, htv0⟩ := isCanonicalTime_spec hts
              rw [htime] at hps0
              injection hps0 with hs0
              have hfs : start_time = formatTime s := by rw [hfs0, hs0]
              have htvst : timeVal start_time = s := by
                unfold timeVal
                rw [htime]
                rfl
              constructor
              · unfold NoOverlap at hInv ⊢
                simp only
                rw [List.pairwise_append]
                refine ⟨hInv, by simp, ?_⟩
                intro a ha c hc
                simp only [List.mem_singleton] at hc
                subst hc
                intro hdate' hover
                obtain ⟨u, hu, hpu, hfu, htvu⟩ := isCanonicalTime_spec (hcanon a ha).1
                obtain ⟨v, hv, hpv, hfv, htvv⟩ := isCanonicalTime_spec (hcanon a ha).2
                have hnum1 : timeVal a.startT < (s + duration.toNat) % 1440 := by
                  have h1 := hover.1
                  rwa [timeVal_formatTime hend] at h1
                have hnum2 : s < timeVal a.endT := by
                  have h2 := hover.2
                  rwa [htvst] at h2
                refine hfree a ha hdate' ⟨?_, ?_⟩
                · rw [hfs, hfv]
                  exact (sqliteLt_formatTime_iff s v hsv hv).mpr (htvv ▸ hnum2)
                · rw [hfu]
                  exact (sqliteLt_formatTime_iff u _ hu hend).mpr (htvu ▸ hnum1)
              · intro b hb
                simp only [List.mem_append, List.mem_singleton] at hb
                rcases hb with hb | hb
                · exact hcanon b hb
                · subst hb
                  exact ⟨hts, isCanonicalTime_formatTime hend⟩
          · exact absurd hok (by simp)
        · exact absurd hok (by simp)
        · exact absurd hok (by simp)

/-- Claim C2 fails as frozen: from the empty store, booking the slot
09:00 for 30 minutes twice — first spelled `"9:00"` (accepted by
`strptime`), then `"09:00"` — succeeds both times, because the raw
string `"9:00"` is stored and SQLite's BINARY order makes the second
availability check compare `'9:00' < '09:30'` as false.  The final
store holds two bookings on the same date whose stored strings denote
the identical interval 09:00-09:30, violating the no-double-booking
invariant. -/
theorem C2_counterexample :
    NoOverlap dbEmpty.rows ∧
    book_slot dbEmpty "2025-04-01" "9:00" 30 "alice" "cut" = .ok (db9a, 1) ∧
    book_slot db9a "2025-04-01" "09:00" 30 "bob" "cut" = .ok (db9b, 2) ∧
    ¬ NoOverlap db9b.rows := by
  refine ⟨List.Pairwise.nil, rfl, rfl, fun h => ?_⟩
  unfold NoOverlap at h
  have h1 := (List.pairwise_cons.mp h).1
    ⟨2, "2025-04-01", "09:00", "09:30", 30, "bob", "cut"⟩ (List.mem_singleton.mpr rfl)
  exact h1 rfl ⟨by decide, by decide⟩

/-- Witness for `C2_no_double_booking`: booking 10:00 for 60 minutes
on the empty store preserves the invariant and canonicity. -/
theorem C2_witness :
    (∀ b ∈ dbEmpty.rows, isCanonicalTime b.startT = true ∧ isCanonicalTime b.endT = true) ∧
    isCanonicalTime "10:00" = true ∧
    NoOverlap dbEmpty.rows ∧
    book_slot dbEmpty "2025-04-01" "10:00" 60 "alice" "cut" = .ok (dbBooked1, 1) ∧
    (NoOverlap dbBooked1.rows ∧
      ∀ b ∈ dbBooked1.rows, isCanonicalTime b.startT = true ∧ isCanonicalTime b.endT = true) :=
  ⟨by decide, by decide, List.Pairwise.nil, rfl,
   C2_no_double_booking dbEmpty dbBooked1 "2025-04-01" "10:00" 60 "alice" "cut" 1
     (by decide) (by decide) List.Pairwise.nil rfl⟩

/-- Claim C3 (amended): the bookings schema has no `(date, start_time)`
uniqueness constraint (the clause is deliberately commented out in
`setup_database`) and no DuplicateSlot error exists; once the
availability check passes, the INSERT appends a row unconditionally,
even when the store already holds a booking with exactly the same
`(date, start_time)` — it does not fail, and a second row is created.
(`book_slot` would only translate a storage error whose message
mentions a UNIQUE constraint, which the schema can never produce.) -/
theorem C3_duplicate_insert_not_rejected (db : DB) (date ts : String)
    (duration : Int) (client_id service_name : String) (s : Nat) (x : Nat × Nat × Nat)
    (hw : db.writeFail = false)
    (hdur : validDuration duration = true)
    (hc : client_id.length ≤ 32)
    (hs : service_name.length ≤ 100)
    (havail : is_slot_available db date ts duration = .ok true)
    (hdate : parseDate date = some x)
    (htime : parseTime ts = some s)
    (hdup : ∃ b ∈ db.rows, b.date = date ∧ b.startT = ts) :
    book_slot db date ts duration client_id service_name =
      .ok ({ db with
              rows := db.rows ++
                [⟨db.nextId, date, ts, formatTime ((s + duration.toNat) % 1440),
                  duration, client_id, service_name⟩],
              nextId := db.nextId + 1 },
           db.nextId) := by
  unfold book_slot
  rw [if_neg (by simp [hdur]), if_neg (by omega), if_neg (by omega), havail, hdate, htime]
  simp only []
  rw [if_neg (by simp [hw])]

/-- Claim C3 fails as frozen: `dbMid1` holds a booking at
("2025-04-01", "23:00") — itself created by `book_slot` from the empty
store — and booking the identical `(date, start_time)` again succeeds,
creating a second row instead of failing with a duplicate-slot
error. -/
theorem C3_counterexample :
    book_slot dbEmpty "2025-04-01" "23:00" 60 "alice" "cut" = .ok (dbMid1, 1) ∧
    (∃ b ∈ dbMid1.rows, b.date = "2025-04-01" ∧ b.startT = "23:00") ∧
    book_slot dbMid1 "2025-04-01" "23:00" 60 "bob" "cut" = .ok (dbMid2, 2) ∧
    (dbMid2.rows.filter fun b => b.date == "2025-04-01" && b.startT == "23:00").length = 2 :=
  ⟨rfl, by decide, rfl, by decide⟩

/-- Witness for `C3_duplicate_insert_not_rejected` at the store
`dbMid1`, which already holds a booking at ("2025-04-01", "23:00"). -/
theorem C3_witness :
    dbMid1.writeFail = false ∧ validDuration 60 = true ∧
    is_slot_available dbMid1 "2025-04-01" "23:00" 60 = .ok true ∧
    (∃ b ∈ dbMid1.rows, b.date = "2025-04-01" ∧ b.startT = "23:00") ∧
    book_slot dbMid1 "2025-04-01" "23:00" 60 "bob" "cut" =
      .ok ({ dbMid1 with
              rows := dbMid1.rows ++
                [⟨dbMid1.nextId, "2025-04-01", "23:00",
                  formatTime ((1380 + (60 : Int).toNat) % 1440), 60, "bob", "cut"⟩],
              nextId := dbMid1.nextId + 1 },
           dbMid1.nextId) :=
  ⟨rfl, by decide, rfl, by decide,
   C3_duplicate_insert_not_rejected dbMid1 "2025-04-01" "23:00" 60 "bob" "cut"
     1380 (2025, 4, 1) rfl (by decide) (by decide) (by decide) rfl (by decide)
     (by decide) (by decide)⟩

/-- Claim C4: `is_slot_available` fails closed: whenever the storage
layer raises (`readFail`), or the date or time string does not parse,
the checker returns `.ok false` — the slot is reported unavailable —
rather than propagating the error. -/
theorem C4_fail_closed (db : DB) (date time : String) (duration : Int)
    (hdur : validDuration duration = true)
    (h : db.readFail = true ∨ parseDate date = none ∨ parseTime time = none) :
    is_slot_available db date time duration = .ok false := by
  unfold is_slot_available
  rw [if_neg (by simp [hdur])]
  rcases h with h | h | h
  · unfold availableOn
    rw [h]
    cases hd : parseDate date <;> cases ht : parseTime time <;> simp
  · rw [h]
  · rw [h]
    cases hd : parseDate date <;> rfl

/-- Witness for `C4_fail_closed` on a store whose read path raises. -/
theorem C4_witness :
    validDuration 30 = true ∧ dbReadFail.readFail = true ∧
    is_slot_available dbReadFail "2025-04-01" "10:00" 30 = .ok false :=
  ⟨by decide, rfl,
   C4_fail_closed dbReadFail "2025-04-01" "10:00" 30 (by decide) (Or.inl rfl)⟩

/-- Claim C5 (amended): a storage error during `book_slot`'s INSERT is
surfaced to the caller: the call raises (the `sqlite3.Error`
re-raised, or converted to `ValueError` when its message mentions a
UNIQUE constraint) instead of returning a booking id.
`cancel_booking`, contrary to the frozen claim, catches the storage
error and returns the ordinary boolean `False`
(see `C5_counterexample`). -/
theorem C5_storage_error_surfacing :
    (∀ (db : DB) (date ts : String) (duration : Int) (c sv : String),
        db.writeFail = true →
        validDuration duration = true → c.length ≤ 32 → sv.length ≤ 100 →
        is_slot_available db date ts duration = .ok true →
        ∃ e, book_slot db date ts duration c sv = .error e) ∧
    (∀ (db : DB) (bid : Int), db.writeFail = true →
        cancel_booking db bid = .ok (db, false)) := by
  constructor
  · intro db date ts duration c sv hw hdur hc hs havail
    obtain ⟨x, s, hdate, htime, _⟩ := is_slot_available_ok_true _ _ _ _ havail
    unfold book_slot
    rw [if_neg (by simp [hdur]), if_neg (by omega), if_neg (by omega), havail, hdate, htime]
    simp only []
    rw [if_pos hw]
    by_cases hu : containsSub db.writeFailMsg "UNIQUE constraint failed" = true
    · rw [if_pos hu]
      exact ⟨_, rfl⟩
    · rw [if_neg hu]
      exact ⟨_, rfl⟩
  · intro db bid hw
    unfold cancel_booking
    by_cases hb : bid ≤ 0
    · rw [if_pos hb]
    · rw [if_neg hb, if_pos hw]

/-- Claim C5 fails as frozen for `cancel_booking`: on a store whose
DELETE raises `sqlite3.Error`, cancelling an existing booking returns
the ordinary boolean result `False` — indistinguishable from
"booking not found" — instead of surfacing the storage error. -/
theorem C5_counterexample :
    dbCancelFail.writeFail = true ∧
    (∃ b ∈ dbCancelFail.rows, b.id = 1) ∧
    cancel_booking dbCancelFail 1 = .ok (dbCancelFail, false) :=
  ⟨rfl, by decide, rfl⟩

/-- Witness for `C5_storage_error_surfacing` on an empty store whose
INSERT raises. -/
theorem C5_witness :
    dbWriteFail.writeFail = true ∧ validDuration 30 = true ∧
    is_slot_available dbWriteFail "2025-04-01" "10:00" 30 = .ok true ∧
    (∃ e, book_slot dbWriteFail "2025-04-01" "10:00" 30 "alice" "cut" = .error e) :=
  ⟨rfl, by decide, rfl,
   C5_storage_error_surfacing.1 dbWriteFail "2025-04-01" "10:00" 30 "alice" "cut"
     rfl (by decide) (by decide) (by decide) rfl⟩

/-- Claim C6 (refuted; code bug): the success payload of
`release_slot` is unreachable: for every request — in particular one
carrying the required date and time fields of an existing booking —
the adapter returns a failure, because `slot_calendar` defines no
`release_slot` function and the call raises `AttributeError`.  The
second conjunct evaluates the adapter at a concrete well-formed
request. -/
theorem C6_release_slot_success_unreachable :
    (∀ (date time : Option String) (b : Bool),
        release_slot_tool date time ≠ .success b) ∧
    release_slot_tool (some "2025-04-01") (some "10:00") =
      .failure "Unexpected error: module 'app.calendar.slot_calendar' has no attribute 'release_slot'" := by
  constructor
  · intro d t b
    unfold release_slot_tool
    split
    · simp
    · simp
  · rfl

/-- Claim C7: `next_available_slot` first advances the candidate to
the next 15-minute boundary at or after the requested instant (first
conjunct: the start candidate is at or after the request, less than
15 minutes ahead, and 15-minute aligned), and skips times outside
business hours by jumping to 09:00 of the same day when before 09:00
and to 09:00 of the following day at or after 17:00.  On an empty
calendar (availability oracle constantly true): a request at 10:05
(minute 605) returns 10:15 (615) the same day, a request at 08:00
(480) returns 09:00 (540) the same day, and a request at 17:00 (1020)
returns 09:00 the next day. -/
theorem C7_rounding_and_business_window :
    (∀ d m : Nat, d * 1440 + m ≤ searchStart d m ∧
        searchStart d m < d * 1440 + m + 15 ∧ searchStart d m % 15 = 0) ∧
    (∀ d : Nat, next_available_slot (fun _ _ => true) d 605 30 = .ok (some (d, 615))) ∧
    (∀ d : Nat, next_available_slot (fun _ _ => true) d 480 30 = .ok (some (d, 540))) ∧
    (∀ d : Nat, next_available_slot (fun _ _ => true) d 1020 30 = .ok (some (d + 1, 540))) := by
  have hv : validDuration 30 = true := by decide
  refine ⟨?_, ?_, ?_, ?_⟩
  · intro d m
    unfold searchStart
    omega
  · intro d
    have hs : searchStart d 605 = d * 1440 + 615 := by unfold searchStart; omega
    unfold next_available_slot searchLimit
    rw [hs, if_neg (by simp [hv])]
    rw [nextAvailLoop_hit _ _ _ (by omega) (by omega) (by omega) rfl]
    rw [show (d * 1440 + 615) / 1440 = d by omega,
        show (d * 1440 + 615) % 1440 = 615 by omega]
  · intro d
    have hs : searchStart d 480 = d * 1440 + 480 := by unfold searchStart; omega
    unfold next_available_slot searchLimit
    rw [hs, if_neg (by simp [hv])]
    rw [nextAvailLoop_before _ _ _ (by omega) (by omega)]
    rw [show d * 1440 + 480 - (d * 1440 + 480) % 1440 + 540 = d * 1440 + 540 by omega]
    rw [nextAvailLoop_hit _ _ _ (by omega) (by omega) (by omega) rfl]
    rw [show (d * 1440 + 540) / 1440 = d by omega,
        show (d * 1440 + 540) % 1440 = 540 by omega]
  · intro d
    have hs : searchStart d 1020 = d * 1440 + 1020 := by unfold searchStart; omega
    unfold next_available_slot searchLimit
    rw [hs, if_neg (by simp [hv])]
    rw [nextAvailLoop_after _ _ _ (by omega) (by omega)]
    rw [show d * 1440 + 1020 - (d * 1440 + 1020) % 1440 + 1980 = d * 1440 + 1980 by omega]
    rw [nextAvailLoop_hit _ _ _ (by omega) (by omega) (by omega) rfl]
    rw [show (d * 1440 + 1980) / 1440 = d + 1 by omega,
        show (d * 1440 + 1980) % 1440 = 540 by omega]

/-- Claim C8: for every store, valid duration and well-formed date,
`slots_available_on_day` returns, in ascending order, exactly those of
the 16 fixed 30-minute-aligned start times in [09:00, 17:00) that pass
the availability check on their canonically formatted time string —
regardless of duration, with no truncation of candidates whose
interval would extend past 17:00.  On the empty calendar with duration
30 it returns all 16 start times 09:00, 09:30, ..., 16:30; after
booking 10:00-11:00 the entries 10:00 (600) and 10:30 (630) are
absent. -/
theorem C8_slots_on_day :
    (∀ (db : DB) (date : String) (duration : Int) (x : Nat × Nat × Nat),
        validDuration duration = true → parseDate date = some x →
        slots_available_on_day db date duration =
          .ok (([540, 570, 600, 630, 660, 690, 720, 750, 780, 810, 840, 870,
                 900, 930, 960, 990]).filter
            fun t => availBool db date (formatTime t) duration)) ∧
    slots_available_on_day dbEmpty "2025-04-01" 30 =
      .ok [540, 570, 600, 630, 660, 690, 720, 750, 780, 810, 840, 870, 900, 930, 960, 990] ∧
    slots_available_on_day dbDay "2025-04-01" 30 =
      .ok [540, 570, 660, 690, 720, 750, 780, 810, 840, 870, 900, 930, 960, 990] := by
  have hgen : ∀ (db : DB) (date : String) (duration : Int) (x : Nat × Nat × Nat),
      validDuration duration = true → parseDate date = some x →
      slots_available_on_day db date duration =
        .ok (([540, 570, 600, 630, 660, 690, 720, 750, 780, 810, 840, 870,
               900, 930, 960, 990]).filter
          fun t => availBool db date (formatTime t) duration) := by
    intro db date duration x hdur hdate
    unfold slots_available_on_day
    rw [if_neg (by simp [hdur]), hdate]
    simp only []
    rw [slotsLoop_eq_filter, slotCandidates_from_540]
  refine ⟨hgen, ?_, ?_⟩
  · rw [hgen dbEmpty "2025-04-01" 30 (2025, 4, 1) (by decide) (by decide)]
    exact congrArg Except.ok (by decide)
  · rw [hgen dbDay "2025-04-01" 30 (2025, 4, 1) (by decide) (by decide)]
    exact congrArg Except.ok (by decide)

/-- Witness for the general part of `C8_slots_on_day` at the store
holding the 10:00-11:00 booking. -/
theorem C8_witness :
    validDuration 30 = true ∧ parseDate "2025-04-01" = some (2025, 4, 1) ∧
    slots_available_on_day dbDay "2025-04-01" 30 =
      .ok (([540, 570, 600, 630, 660, 690, 720, 750, 780, 810, 840, 870,
             900, 930, 960, 990]).filter
        fun t => availBool dbDay "2025-04-01" (formatTime t) 30) :=
  ⟨by decide, by decide,
   C8_slots_on_day.1 dbDay "2025-04-01" 30 (2025, 4, 1) (by decide) (by decide)⟩

/-- Claim C9: the next-slot scan is bounded to one year (365 days)
after the rounded start candidate: when no slot inside that horizon is
available, the search returns `none` rather than iterating
unboundedly.  (Termination on every input is intrinsic to the model:
`nextAvailLoop` is defined by well-founded recursion on
`limit - current`, every branch strictly advancing the candidate,
mirroring the loop's progress.) -/
theorem C9_bounded_one_year (avail : Nat → Nat → Bool) (startDay startMin : Nat)
    (duration : Int)
    (hdur : validDuration duration = true)
    (hnone : ∀ day minute : Nat, minute < 1440 →
      searchStart startDay startMin ≤ day * 1440 + minute →
      day * 1440 + minute < searchLimit startDay startMin →
      avail day minute = false) :
    next_available_slot avail startDay startMin duration = .ok none := by
  unfold next_available_slot
  rw [if_neg (by simp [hdur])]
  exact congrArg Except.ok
    (nextAvailLoop_none avail (searchLimit startDay startMin)
      (searchStart startDay startMin) hnone)

/-- Witness for `C9_bounded_one_year` with a nowhere-available
calendar. -/
theorem C9_witness :
    validDuration 15 = true ∧
    next_available_slot (fun _ _ => false) 0 0 15 = .ok none :=
  ⟨by decide,
   C9_bounded_one_year (fun _ _ => false) 0 0 15 (by decide)
     (fun _ _ _ _ _ => rfl)⟩

/-- Claim C10: the adapter reports present-but-falsy required fields
as missing: a duration equal to the integer 0, or an empty string in a
required field, triggers the missing-parameters failure before any
engine call — so `book_slot_tool` with duration 0 yields the
missing-parameter error, never the engine's invalid-duration error. -/
theorem C10_falsy_required_fields :
    (∀ (db : DB) (date time client_id service_name : Option String),
        book_slot_tool db date time (some 0) client_id service_name =
          .failure "Missing required parameters: date, time, duration, client_id, and service_name are required") ∧
    (∀ (db : DB) (date time : Option String),
        is_slot_available_tool db date time (some 0) =
          .failure "Missing required parameters: date, time, and duration are required") ∧
    (∀ (engine : String → String → Int → Except String (Option (String × String)))
        (after_date : Option String) (duration : Option Int),
        next_available_slot_tool engine after_date (some "") duration =
          .failure "Missing required parameters: after_date, after_time, and duration are required") := by
  refine ⟨?_, ?_, ?_⟩
  · intro db date time c sv
    unfold book_slot_tool
    rw [if_pos (by simp [truthyI])]
  · intro db date time
    unfold is_slot_available_tool
    rw [if_pos (by simp [truthyI])]
  · intro engine ad dur
    unfold next_available_slot_tool
    rw [if_pos (by simp [truthyS])]
